import Mathlib

/-!
Shallow embedding of the booking / trip / payment core of the P2P electric
motorbike rental backend (NestJS + Prisma).  Times are modelled as `Int`
milliseconds since the epoch (JS `Date.getTime()`), monetary amounts and
battery/coordinate numbers as `ℚ` (exact arithmetic in place of JS numbers),
and database ids as `Nat` (the services treat Prisma's string ids opaquely,
only comparing them for equality, so any infinite type with decidable
equality is a faithful model; `Nat` lets a fresh-id counter generate them).
Each service method becomes a pure function `DB → Except ApiError (α × DB)`:
a thrown Nest exception is `.error`, and since every method performs all of
its reads and validation checks before its first write, an error return
leaves the database unchanged, exactly as in the source.
-/

namespace EMRS

/-- JS `Math.ceil` restricted to rationals (the source only applies it to
finite numeric values). -/
def jsCeil (q : ℚ) : ℤ := -((-q).floor)

/-- JS `Math.floor` on rationals. -/
def jsFloor (q : ℚ) : ℤ := q.floor

inductive BookingStatus where
  | PENDING | CONFIRMED | ONGOING | COMPLETED | CANCELLED | REJECTED
deriving DecidableEq, Repr

inductive TripStatus where
  | NOT_STARTED | ONGOING | COMPLETED | CANCELLED
deriving DecidableEq, Repr

inductive VehicleStatus where
  | AVAILABLE | RENTED | MAINTENANCE | PENDING_APPROVAL | REJECTED | LOCKED | UNAVAILABLE
deriving DecidableEq, Repr

inductive PaymentStatus where
  | PENDING | PROCESSING | COMPLETED | FAILED | REFUNDED
deriving DecidableEq, Repr

/-- Nest HTTP exceptions raised by the services, with their message. -/
inductive ApiError where
  | NotFound (msg : String)
  | BadRequest (msg : String)
  | Conflict (msg : String)
deriving DecidableEq, Repr

/-- `bookings` table row (scalar columns used by the services). -/
structure Booking where
  id : Nat
  renterId : Nat
  ownerId : Nat
  vehicleId : Nat
  status : BookingStatus
  startTime : Int
  endTime : Int
  totalPrice : ℚ
  deposit : ℚ
  notes : Option String
  cancellationReason : Option String
  confirmedAt : Option Int
  cancelledAt : Option Int
deriving DecidableEq, Repr

/-- `trips` table row (scalar columns used by the services; the nullable
columns are `Option` exactly as in the schema). -/
structure Trip where
  id : Nat
  bookingId : Nat
  renterId : Nat
  vehicleId : Nat
  status : TripStatus
  startLatitude : Option ℚ
  startLongitude : Option ℚ
  startAddress : Option String
  endLatitude : Option ℚ
  endLongitude : Option ℚ
  endAddress : Option String
  duration : Option Int
  startBattery : Option ℚ
  endBattery : Option ℚ
  hasIssues : Bool
  issueDescription : Option String
  startedAt : Option Int
  completedAt : Option Int
deriving DecidableEq, Repr

/-- `vehicles` table row (columns read or written by the booking/trip
services). -/
structure Vehicle where
  id : Nat
  ownerId : Nat
  pricePerHour : ℚ
  pricePerDay : ℚ
  deposit : ℚ
  status : VehicleStatus
  isAvailable : Bool
  totalTrips : Nat
deriving DecidableEq, Repr

/-- `payments` table row (scalar columns used by `PaymentsService`). -/
structure Payment where
  id : Nat
  bookingId : Nat
  payerId : Nat
  receiverId : Nat
  amount : ℚ
  platformFee : ℚ
  ownerAmount : ℚ
  method : String
  status : PaymentStatus
deriving DecidableEq, Repr

/-- The relational store shared by all services, plus a fresh-id counter
standing in for Prisma's id generation. -/
structure DB where
  vehicles : List Vehicle
  bookings : List Booking
  trips : List Trip
  payments : List Payment
  nextId : Nat
deriving DecidableEq, Repr

def DB.findVehicle (db : DB) (id : Nat) : Option Vehicle :=
  db.vehicles.find? (fun v => v.id == id)

def DB.findBooking (db : DB) (id : Nat) : Option Booking :=
  db.bookings.find? (fun b => b.id == id)

def DB.findTrip (db : DB) (id : Nat) : Option Trip :=
  db.trips.find? (fun t => t.id == id)

/-- Prisma `include: { trip: true }` on a booking: the unique trip with this
`bookingId`, if any. -/
def DB.findTripByBooking (db : DB) (bookingId : Nat) : Option Trip :=
  db.trips.find? (fun t => t.bookingId == bookingId)

/-- Prisma `include: { payment: true }` on a booking. -/
def DB.findPaymentByBooking (db : DB) (bookingId : Nat) : Option Payment :=
  db.payments.find? (fun p => p.bookingId == bookingId)

/-- `BookingsService.calculateTotalPrice`: millisecond difference, converted
to hours and days; daily rate when the duration is at least one day,
hourly rate otherwise, with `Math.ceil` rounding up partial units. -/
def calculateTotalPrice (startTime endTime : Int) (pricePerHour pricePerDay : ℚ) : ℚ :=
  let durationMs : ℚ := ((endTime - startTime : Int) : ℚ)
  let durationHours : ℚ := durationMs / (1000 * 60 * 60)
  let durationDays : ℚ := durationHours / 24
  if 1 ≤ durationDays then (jsCeil durationDays : ℚ) * pricePerDay
  else (jsCeil durationHours : ℚ) * pricePerHour

/-- The three-clause interval test of the Prisma `OR` filter in
`BookingsService.isVehicleAvailable` and `OwnerBookingsService.approveBooking`:
an existing booking `[bs, be)` is flagged against a requested window `[s, e)`. -/
def conflictClauses (bs be s e : Int) : Prop :=
  (bs ≤ s ∧ s < be) ∨ (bs < e ∧ e ≤ be) ∨ (s ≤ bs ∧ be ≤ e)

instance (bs be s e : Int) : Decidable (conflictClauses bs be s e) := by
  unfold conflictClauses; infer_instance

/-- Reference half-open interval intersection predicate (the spec's
definition of overlap between `[bs, be)` and `[s, e)`). -/
def intervalsOverlap (bs be s e : Int) : Prop :=
  s < be ∧ bs < e

instance (bs be s e : Int) : Decidable (intervalsOverlap bs be s e) := by
  unfold intervalsOverlap; infer_instance

/-- Booking statuses counted as occupying the vehicle at creation time. -/
def isBlockingStatus (st : BookingStatus) : Prop :=
  st = .PENDING ∨ st = .CONFIRMED ∨ st = .ONGOING

instance (st : BookingStatus) : Decidable (isBlockingStatus st) := by
  unfold isBlockingStatus; infer_instance

/-- Statuses re-checked at approval time (`CONFIRMED`/`ONGOING` only). -/
def isActiveStatus (st : BookingStatus) : Prop :=
  st = .CONFIRMED ∨ st = .ONGOING

instance (st : BookingStatus) : Decidable (isActiveStatus st) := by
  unfold isActiveStatus; infer_instance

/-- `BookingsService.isVehicleAvailable`: true when no booking of the vehicle
with status in {PENDING, CONFIRMED, ONGOING} (optionally excluding one id)
matches the three-clause overlap filter against `[startTime, endTime)`. -/
def isVehicleAvailable (db : DB) (vehicleId : Nat) (startTime endTime : Int)
    (excludeBookingId : Option Nat) : Bool :=
  let conflictingBookings := db.bookings.filter (fun b =>
    decide (b.vehicleId = vehicleId ∧
      excludeBookingId ≠ some b.id ∧
      isBlockingStatus b.status ∧
      conflictClauses b.startTime b.endTime startTime endTime))
  conflictingBookings.length == 0

/-- Prisma `update where id` on the bookings table. -/
def DB.updateBooking (db : DB) (id : Nat) (f : Booking → Booking) : DB :=
  { db with bookings := db.bookings.map (fun b => if b.id = id then f b else b) }

/-- Prisma `update where id` on the trips table. -/
def DB.updateTrip (db : DB) (id : Nat) (f : Trip → Trip) : DB :=
  { db with trips := db.trips.map (fun t => if t.id = id then f t else t) }

/-- Prisma `update where id` on the vehicles table. -/
def DB.updateVehicle (db : DB) (id : Nat) (f : Vehicle → Vehicle) : DB :=
  { db with vehicles := db.vehicles.map (fun v => if v.id = id then f v else v) }

/-- `BookingsService.createBooking`.  `now` stands for `new Date()`; the dto
carries `vehicleId`, `startTime`, `endTime`, `notes`. -/
def createBooking (db : DB) (userId vehicleId : Nat) (startTime endTime : Int)
    (notes : Option String) (now : Int) : Except ApiError (Booking × DB) :=
  if endTime ≤ startTime then
    .error (.BadRequest "End time must be after start time")
  else if startTime < now then
    .error (.BadRequest "Start time must be in the future")
  else
    match db.findVehicle vehicleId with
    | none => .error (.NotFound "Vehicle not found")
    | some vehicle =>
      if vehicle.ownerId = userId then
        .error (.BadRequest "You cannot book your own vehicle")
      else if ¬ (vehicle.isAvailable = true ∧ vehicle.status = .AVAILABLE) then
        .error (.Conflict "Vehicle is not available for booking")
      else if ¬ isVehicleAvailable db vehicleId startTime endTime none then
        .error (.Conflict "Vehicle is already booked for the selected time period")
      else
        let totalPrice :=
          calculateTotalPrice startTime endTime vehicle.pricePerHour vehicle.pricePerDay
        let booking : Booking :=
          { id := db.nextId, renterId := userId, ownerId := vehicle.ownerId,
            vehicleId := vehicleId, status := .PENDING,
            startTime := startTime, endTime := endTime,
            totalPrice := totalPrice, deposit := vehicle.deposit,
            notes := notes, cancellationReason := none,
            confirmedAt := none, cancelledAt := none }
        .ok (booking, { db with bookings := db.bookings ++ [booking],
                                nextId := db.nextId + 1 })

/-- The approval-time conflict scan of `OwnerBookingsService.approveBooking`:
bookings of the same vehicle, other than the one being approved, with status
in {CONFIRMED, ONGOING}, matching the three-clause overlap filter against
the approved booking's window.  In the source this is a single `findMany`
await against the shared store. -/
def approvalConflicts (db : DB) (booking : Booking) : List Booking :=
  db.bookings.filter (fun b =>
    decide (b.vehicleId = booking.vehicleId ∧ b.id ≠ booking.id ∧
      isActiveStatus b.status ∧
      conflictClauses b.startTime b.endTime booking.startTime booking.endTime))

/-- `OwnerBookingsService.approveBooking`.  The conflict re-check and the
`CONFIRMED` update are two separate store calls in the source (no
transaction); sequentially that is equivalent to this single function, and
the interleaved behaviour is modelled separately by `approveCheck` /
`approveCommit`. -/
def approveBooking (db : DB) (bookingId ownerId : Nat) (now : Int) :
    Except ApiError (Booking × DB) :=
  match db.findBooking bookingId with
  | none => .error (.NotFound "Booking not found")
  | some booking =>
    if booking.ownerId ≠ ownerId then
      .error (.BadRequest "You can only approve your own bookings")
    else if booking.status ≠ .PENDING then
      .error (.BadRequest "Only pending bookings can be approved")
    else if 0 < (approvalConflicts db booking).length then
      .error (.BadRequest "Vehicle is no longer available for this time slot")
    else
      let updated := { booking with status := .CONFIRMED, confirmedAt := some now }
      .ok (updated, db.updateBooking bookingId
            (fun b => { b with status := .CONFIRMED, confirmedAt := some now }))

/-- `OwnerBookingsService.rejectBooking`. -/
def rejectBooking (db : DB) (bookingId ownerId : Nat) (reason : String) (now : Int) :
    Except ApiError (Booking × DB) :=
  match db.findBooking bookingId with
  | none => .error (.NotFound "Booking not found")
  | some booking =>
    if booking.ownerId ≠ ownerId then
      .error (.BadRequest "You can only reject your own bookings")
    else if booking.status ≠ .PENDING then
      .error (.BadRequest "Only pending bookings can be rejected")
    else
      let upd : Booking → Booking := fun b =>
        { b with
          status := .REJECTED,
          cancellationReason := some reason,
          cancelledAt := some now }
      .ok (upd booking, db.updateBooking bookingId upd)

/-- `BookingsService.cancelBooking` (renter side). -/
def cancelBooking (db : DB) (bookingId userId : Nat) (reason : String) (now : Int) :
    Except ApiError (Booking × DB) :=
  match db.findBooking bookingId with
  | none => .error (.NotFound "Booking not found")
  | some booking =>
    if booking.renterId ≠ userId then
      .error (.BadRequest "You can only cancel your own bookings")
    else if booking.status ≠ .PENDING ∧ booking.status ≠ .CONFIRMED then
      .error (.BadRequest "Only pending or confirmed bookings can be cancelled")
    else
      let upd : Booking → Booking := fun b =>
        { b with
          status := .CANCELLED,
          cancellationReason := some reason,
          cancelledAt := some now }
      .ok (upd booking, db.updateBooking bookingId upd)

/-- `TripsService.startTrip`.  The dto carries `bookingId`, start coordinates,
`startBattery`, optional `startAddress`; `now` is `new Date()`.  Trip creation
and the booking update happen in one `$transaction` in the source. -/
def startTrip (db : DB) (userId bookingId : Nat) (startLatitude startLongitude : ℚ)
    (startBattery : ℚ) (startAddress : Option String) (now : Int) :
    Except ApiError (Trip × DB) :=
  match db.findBooking bookingId with
  | none => .error (.NotFound "Booking not found")
  | some booking =>
    if booking.renterId ≠ userId then
      .error (.BadRequest "You can only start your own trips")
    else if booking.status ≠ .CONFIRMED then
      .error (.BadRequest "Can only start trip for confirmed bookings")
    else if (db.findTripByBooking bookingId).isSome then
      .error (.BadRequest "Trip has already been started")
    else if now < booking.startTime then
      .error (.BadRequest "Cannot start trip before booking start time")
    else
      let newTrip : Trip :=
        { id := db.nextId, bookingId := bookingId, renterId := userId,
          vehicleId := booking.vehicleId, status := .ONGOING,
          startLatitude := some startLatitude, startLongitude := some startLongitude,
          startAddress := startAddress, endLatitude := none, endLongitude := none,
          endAddress := none, duration := none,
          startBattery := some startBattery, endBattery := none,
          hasIssues := false, issueDescription := none,
          startedAt := some now, completedAt := none }
      let db1 := { db with trips := db.trips ++ [newTrip], nextId := db.nextId + 1 }
      .ok (newTrip, db1.updateBooking bookingId (fun b => { b with status := .ONGOING }))

/-- JS truthiness of `!x` for a nullable number column: `null` and `0` are
falsy. -/
def jsFalsyNum : Option ℚ → Bool
  | none => true
  | some q => q == 0

/-- `TripsService.endTrip`.  The dto carries end coordinates, `endBattery`,
optional `endAddress`, `hasIssues`, `issueDescription`; `now` is the
`new Date()` taken for `endTime`.  The trip update, the booking update and
the vehicle `totalTrips` increment happen in one `$transaction`.  The
`distanceTraveled` column, being a pure function of the stored start and end
coordinates (`calculateDistance`), is represented by the derived function
`Trip.distanceTraveled` below rather than duplicated as a stored field. -/
def endTrip (db : DB) (tripId userId : Nat) (endLatitude endLongitude : ℚ)
    (endBattery : ℚ) (endAddress : Option String) (hasIssues : Option Bool)
    (issueDescription : Option String) (now : Int) : Except ApiError (Trip × DB) :=
  match db.findTrip tripId with
  | none => .error (.NotFound "Trip not found")
  | some trip =>
    if trip.renterId ≠ userId then
      .error (.BadRequest "You can only end your own trips")
    else if trip.status ≠ .ONGOING then
      .error (.BadRequest "Can only end ongoing trips")
    else if trip.startedAt = none ∨ jsFalsyNum trip.startLatitude
            ∨ jsFalsyNum trip.startLongitude then
      .error (.BadRequest "Trip start data is missing")
    else
      let durationMinutes := Int.fdiv (now - trip.startedAt.getD 0) (1000 * 60)
      let upd : Trip → Trip := fun t =>
        { t with
          status := .COMPLETED,
          endLatitude := some endLatitude,
          endLongitude := some endLongitude,
          endAddress := endAddress,
          endBattery := some endBattery,
          duration := some durationMinutes,
          hasIssues := hasIssues.getD false,
          issueDescription := issueDescription,
          completedAt := some now }
      let db1 := db.updateTrip tripId upd
      let db2 := db1.updateBooking trip.bookingId (fun b => { b with status := .COMPLETED })
      let db3 := db2.updateVehicle trip.vehicleId
        (fun v => { v with totalTrips := v.totalTrips + 1 })
      .ok (upd trip, db3)

/-- `PaymentsService.createPayment`.  The dto carries `bookingId` and
`method`. -/
def createPayment (db : DB) (userId bookingId : Nat) (method : String) :
    Except ApiError (Payment × DB) :=
  match db.findBooking bookingId with
  | none => .error (.NotFound "Booking not found")
  | some booking =>
    if booking.renterId ≠ userId then
      .error (.BadRequest "You can only pay for your own bookings")
    else if (db.findPaymentByBooking bookingId).isSome then
      .error (.BadRequest "Payment already exists for this booking")
    else if booking.status ≠ .CONFIRMED then
      .error (.BadRequest "Can only pay for confirmed bookings")
    else
      let totalAmount := booking.totalPrice + booking.deposit
      let platformFee := totalAmount * (15 / 100 : ℚ)
      let ownerAmount := totalAmount - platformFee
      let payment : Payment :=
        { id := db.nextId, bookingId := bookingId, payerId := userId,
          receiverId := booking.ownerId, amount := totalAmount,
          platformFee := platformFee, ownerAmount := ownerAmount,
          method := method, status := .PENDING }
      .ok (payment, { db with payments := db.payments ++ [payment],
                              nextId := db.nextId + 1 })

/-- The row filter of `BookingsService.getVehicleSchedule`: same vehicle,
status in {PENDING, CONFIRMED, ONGOING}, `endTime ≥ now`. -/
def schedulePred (vehicleId : Nat) (now : Int) (b : Booking) : Prop :=
  b.vehicleId = vehicleId ∧ isBlockingStatus b.status ∧ now ≤ b.endTime

instance (vehicleId : Nat) (now : Int) (b : Booking) :
    Decidable (schedulePred vehicleId now b) := by
  unfold schedulePred; infer_instance

/-- `BookingsService.getVehicleSchedule`: the matching booking rows ordered
by `startTime` ascending, limited to 30, returned without any renter
relation loaded (the raw `bookings` rows, which still carry the `renterId`
column). -/
def getVehicleSchedule (db : DB) (vehicleId : Nat) (now : Int) : List Booking :=
  (((db.bookings.filter (fun b => decide (schedulePred vehicleId now b))).mergeSort
      (fun a b => decide (a.startTime ≤ b.startTime)))).take 30

/-- `TripsService.toRadians`. -/
noncomputable def toRadians (degrees : ℝ) : ℝ := degrees * (Real.pi / 180)

/-- JS `Math.atan2 y x` on the reals (the standard two-argument arctangent;
signed-zero distinctions of IEEE 754 collapse in ℝ). -/
noncomputable def atan2 (y x : ℝ) : ℝ :=
  if 0 < x then Real.arctan (y / x)
  else if x < 0 then
    (if 0 ≤ y then Real.arctan (y / x) + Real.pi else Real.arctan (y / x) - Real.pi)
  else
    (if 0 < y then Real.pi / 2 else if y < 0 then -(Real.pi / 2) else 0)

/-- `TripsService.calculateDistance`: great-circle distance by the haversine
formula, Earth radius 6371 km, inputs in degrees. -/
noncomputable def calculateDistance (lat1 lon1 lat2 lon2 : ℝ) : ℝ :=
  let R : ℝ := 6371
  let dLat := toRadians (lat2 - lat1)
  let dLon := toRadians (lon2 - lon1)
  let a :=
    Real.sin (dLat / 2) * Real.sin (dLat / 2) +
      Real.cos (toRadians lat1) * Real.cos (toRadians lat2) *
        (Real.sin (dLon / 2) * Real.sin (dLon / 2))
  let c := 2 * atan2 (Real.sqrt a) (Real.sqrt (1 - a))
  R * c

/-- The `distanceTraveled` column written by `endTrip` is exactly
`calculateDistance` of the stored start and end coordinates, so it is
represented as this derived function of the row. -/
noncomputable def Trip.distanceTraveled (t : Trip) : ℝ :=
  calculateDistance ((t.startLatitude.getD 0 : ℚ) : ℝ) ((t.startLongitude.getD 0 : ℚ) : ℝ)
    ((t.endLatitude.getD 0 : ℚ) : ℝ) ((t.endLongitude.getD 0 : ℚ) : ℝ)

/-!
### Interleaved model of `approveBooking`

In the source, `approveBooking` performs its reads and checks (the
`findUnique` and the conflict `findMany`) and its `update` as separate
awaited store calls with **no** surrounding transaction or lock.  To reason
about two concurrent calls, the method is split at that suspension point
into an atomic check phase and an atomic commit phase; `approveBooking`
itself is exactly "check then commit with no interleaving in between"
(`approveBooking_eq_check_commit` below).
-/

/-- The read/validate phase of `approveBooking`: all checks up to and
including the conflict scan, returning the booking to confirm when every
check passes and the error otherwise.  No writes happen in this phase. -/
def approveCheck (db : DB) (bookingId ownerId : Nat) : Except ApiError Booking :=
  match db.findBooking bookingId with
  | none => .error (.NotFound "Booking not found")
  | some booking =>
    if booking.ownerId ≠ ownerId then
      .error (.BadRequest "You can only approve your own bookings")
    else if booking.status ≠ .PENDING then
      .error (.BadRequest "Only pending bookings can be approved")
    else if 0 < (approvalConflicts db booking).length then
      .error (.BadRequest "Vehicle is no longer available for this time slot")
    else
      .ok booking

/-- The write phase of `approveBooking`: the `update` store call setting the
booking `CONFIRMED`. -/
def approveCommit (db : DB) (bookingId : Nat) (now : Int) : DB :=
  db.updateBooking bookingId
    (fun b => { b with status := .CONFIRMED, confirmedAt := some now })

theorem approveBooking_eq_check_commit (db : DB) (bookingId ownerId : Nat) (now : Int) :
    approveBooking db bookingId ownerId now =
      (approveCheck db bookingId ownerId).map
        (fun booking => ({ booking with status := .CONFIRMED, confirmedAt := some now },
          approveCommit db bookingId now)) := by
  unfold approveBooking approveCheck approveCommit
  cases db.findBooking bookingId with
  | none => rfl
  | some booking =>
    by_cases h1 : booking.ownerId ≠ ownerId
    · simp [h1, Except.map]
    · by_cases h2 : booking.status ≠ BookingStatus.PENDING
      · simp [h1, h2, Except.map]
      · simp only [ne_eq, not_not] at h2
        by_cases h3 : 0 < (approvalConflicts db booking).length <;>
          simp [h1, h2, h3, Except.map]

/-!
### Sequential state machine and the no-double-booking invariant
-/

/-- One sequential execution step: a successful call of one of the six
booking-engine operations. -/
inductive Step (db : DB) : DB → Prop where
  | create {userId vehicleId : Nat} {startTime endTime : Int} {notes : Option String}
      {now : Int} {bk : Booking} {db' : DB}
      (h : createBooking db userId vehicleId startTime endTime notes now = .ok (bk, db')) :
      Step db db'
  | approve {bookingId ownerId : Nat} {now : Int} {bk : Booking} {db' : DB}
      (h : approveBooking db bookingId ownerId now = .ok (bk, db')) : Step db db'
  | reject {bookingId ownerId : Nat} {reason : String} {now : Int} {bk : Booking} {db' : DB}
      (h : rejectBooking db bookingId ownerId reason now = .ok (bk, db')) : Step db db'
  | cancel {bookingId userId : Nat} {reason : String} {now : Int} {bk : Booking} {db' : DB}
      (h : cancelBooking db bookingId userId reason now = .ok (bk, db')) : Step db db'
  | start {userId bookingId : Nat} {lat lon batt : ℚ} {addr : Option String} {now : Int}
      {t : Trip} {db' : DB}
      (h : startTrip db userId bookingId lat lon batt addr now = .ok (t, db')) : Step db db'
  | stop {tripId userId : Nat} {lat lon batt : ℚ} {addr : Option String}
      {hasIssues : Option Bool} {desc : Option String} {now : Int} {t : Trip} {db' : DB}
      (h : endTrip db tripId userId lat lon batt addr hasIssues desc now = .ok (t, db')) :
      Step db db'

/-- States reachable from an initial store with any vehicle catalog and no
bookings, trips or payments, through the booking operations. -/
inductive Reachable : DB → Prop where
  | init (vehicles : List Vehicle) (nextId : Nat) :
      Reachable { vehicles := vehicles, bookings := [], trips := [], payments := [],
                  nextId := nextId }
  | step {db db' : DB} : Reachable db → Step db db' → Reachable db'

/-- Any two distinct bookings of one vehicle that are both CONFIRMED or
ONGOING occupy disjoint half-open windows. -/
def noDoubleBooking (db : DB) : Prop :=
  ∀ a ∈ db.bookings, ∀ b ∈ db.bookings,
    a.id ≠ b.id → a.vehicleId = b.vehicleId →
    isActiveStatus a.status → isActiveStatus b.status →
    ¬ intervalsOverlap a.startTime a.endTime b.startTime b.endTime

/-- Structural well-formedness maintained by the operations: every booking
has a nonempty window and an id below the fresh-id counter, and ids are
pairwise distinct. -/
def wfDB (db : DB) : Prop :=
  (∀ b ∈ db.bookings, b.startTime < b.endTime ∧ b.id < db.nextId) ∧
  (db.bookings.map Booking.id).Nodup

/-- The three-clause Prisma filter is exactly half-open interval
intersection, for nonempty intervals. -/
lemma conflictClauses_iff {bs be s e : Int} (hb : bs < be) (hn : s < e) :
    conflictClauses bs be s e ↔ intervalsOverlap bs be s e := by
  unfold conflictClauses intervalsOverlap
  omega

lemma intervalsOverlap_comm {bs be s e : Int} :
    intervalsOverlap bs be s e ↔ intervalsOverlap s e bs be := by
  unfold intervalsOverlap
  omega

lemma mem_of_find?_beq {l : List Booking} {b : Booking} {id : Nat}
    (h : l.find? (fun x => x.id == id) = some b) : b ∈ l ∧ b.id = id := by
  refine ⟨List.mem_of_find?_eq_some h, ?_⟩
  have := List.find?_some h
  simpa using this

/-- With pairwise-distinct ids, any member with the looked-up id is the
booking `find?` returned. -/
lemma eq_of_mem_of_find? {l : List Booking} {b t : Booking} {id : Nat}
    (hnd : (l.map Booking.id).Nodup)
    (hf : l.find? (fun x => x.id == id) = some b)
    (ht : t ∈ l) (hid : t.id = id) : t = b := by
  obtain ⟨hb, hbid⟩ := mem_of_find?_beq hf
  exact List.inj_on_of_nodup_map hnd ht hb (by rw [hid, hbid])

section UpdatePreservation

variable {db : DB} {targetId : Nat} {f : Booking → Booking}

lemma updateBooking_id_eq (hid : ∀ b, (f b).id = b.id) (b : Booking) :
    (if b.id = targetId then f b else b).id = b.id := by
  by_cases h : b.id = targetId <;> simp [h, hid]

lemma updateBooking_map_id (hid : ∀ b, (f b).id = b.id) :
    (db.updateBooking targetId f).bookings.map Booking.id = db.bookings.map Booking.id := by
  simp only [DB.updateBooking, List.map_map]
  exact List.map_congr_left (fun b _ => updateBooking_id_eq hid b)

/-- A booking update that keeps id, vehicle and window intact preserves the
no-double-booking property, provided the booking it turns (or keeps) active
does not overlap any other active booking of the same vehicle. -/
lemma noDoubleBooking_updateBooking
    (hid : ∀ b, (f b).id = b.id)
    (hveh : ∀ b, (f b).vehicleId = b.vehicleId)
    (hst : ∀ b, (f b).startTime = b.startTime)
    (het : ∀ b, (f b).endTime = b.endTime)
    (hinv : noDoubleBooking db)
    (hsafe : ∀ t ∈ db.bookings, t.id = targetId → isActiveStatus (f t).status →
      ∀ c ∈ db.bookings, c.id ≠ targetId → c.vehicleId = t.vehicleId →
        isActiveStatus c.status →
        ¬ intervalsOverlap t.startTime t.endTime c.startTime c.endTime) :
    noDoubleBooking (db.updateBooking targetId f) := by
  intro a' ha' b' hb' hne hv hact1 hact2
  simp only [DB.updateBooking, List.mem_map] at ha' hb'
  obtain ⟨a, haMem, rfl⟩ := ha'
  obtain ⟨b, hbMem, rfl⟩ := hb'
  by_cases hA : a.id = targetId <;> by_cases hB : b.id = targetId <;>
    simp only [hA, hB, if_pos, if_neg, if_true, if_false] at hne hv hact1 hact2 ⊢
  · exact absurd (by rw [hid, hid, hA, hB]) hne
  · rw [hveh] at hv
    rw [hst, het]
    exact hsafe a haMem hA hact1 b hbMem hB hv.symm hact2
  · rw [hveh] at hv
    rw [hst, het]
    intro hov
    exact hsafe b hbMem hB hact2 a haMem hA hv hact1
      (intervalsOverlap_comm.mp hov)
  · exact hinv a haMem b hbMem hne hv hact1 hact2

lemma wfDB_updateBooking
    (hid : ∀ b, (f b).id = b.id)
    (hst : ∀ b, (f b).startTime = b.startTime)
    (het : ∀ b, (f b).endTime = b.endTime)
    (hwf : wfDB db) : wfDB (db.updateBooking targetId f) := by
  obtain ⟨hb, hnd⟩ := hwf
  constructor
  · intro b' hb'
    simp only [DB.updateBooking, List.mem_map] at hb'
    obtain ⟨b, hbMem, rfl⟩ := hb'
    have := hb b hbMem
    by_cases h : b.id = targetId <;> simp [DB.updateBooking, h, hid, hst, het, this] <;>
      omega
  · rw [updateBooking_map_id hid]
    exact hnd

end UpdatePreservation

lemma createBooking_ok {db : DB} {userId vehicleId : Nat} {startTime endTime : Int}
    {notes : Option String} {now : Int} {bk : Booking} {db' : DB}
    (h : createBooking db userId vehicleId startTime endTime notes now = .ok (bk, db')) :
    startTime < endTime ∧ bk.status = .PENDING ∧ bk.id = db.nextId ∧
    bk.startTime = startTime ∧ bk.endTime = endTime ∧
    db'.bookings = db.bookings ++ [bk] ∧ db'.vehicles = db.vehicles ∧
    db'.nextId = db.nextId + 1 := by
  unfold createBooking at h
  split at h
  · exact absurd h (by simp)
  split at h
  · exact absurd h (by simp)
  split at h
  · exact absurd h (by simp)
  split at h
  · exact absurd h (by simp)
  split at h
  · exact absurd h (by simp)
  split at h
  · exact absurd h (by simp)
  simp only [Except.ok.injEq, Prod.mk.injEq] at h
  obtain ⟨hbk, hdb⟩ := h
  subst hdb
  constructor
  · omega
  refine ⟨?_, ?_, ?_, ?_, ?_, ?_, ?_⟩ <;> simp [← hbk]

lemma inv_create {db : DB} {userId vehicleId : Nat} {startTime endTime : Int}
    {notes : Option String} {now : Int} {bk : Booking} {db' : DB}
    (h : createBooking db userId vehicleId startTime endTime notes now = .ok (bk, db'))
    (hwf : wfDB db) (hinv : noDoubleBooking db) :
    wfDB db' ∧ noDoubleBooking db' := by
  obtain ⟨hlt, hstat, hbid, hbs, hbe, hbks, hveh, hnext⟩ := createBooking_ok h
  obtain ⟨hbound, hnd⟩ := hwf
  refine ⟨⟨?_, ?_⟩, ?_⟩
  · intro b hb
    rw [hbks] at hb
    rw [hnext]
    rcases List.mem_append.mp hb with hb | hb
    · have := hbound b hb; omega
    · rcases List.mem_singleton.mp hb with rfl
      omega
  · rw [hbks, List.map_append]
    rw [List.nodup_append]
    refine ⟨hnd, by simp, ?_⟩
    intro x hx
    simp only [List.map_cons, List.map_nil, List.mem_cons, List.not_mem_nil, or_false]
    intro hx2
    obtain ⟨b, hbMem, rfl⟩ := List.mem_map.mp hx
    have := hbound b hbMem
    omega
  · intro a ha b hb hne hv ha1 ha2
    rw [hbks] at ha hb
    rcases List.mem_append.mp ha with ha | ha <;>
      rcases List.mem_append.mp hb with hb | hb
    · exact hinv a ha b hb hne hv ha1 ha2
    · rcases List.mem_singleton.mp hb with rfl
      rw [hstat] at ha2
      exact absurd ha2 (by simp [isActiveStatus])
    · rcases List.mem_singleton.mp ha with rfl
      rw [hstat] at ha1
      exact absurd ha1 (by simp [isActiveStatus])
    · rcases List.mem_singleton.mp ha with rfl
      rw [hstat] at ha1
      exact absurd ha1 (by simp [isActiveStatus])

lemma approvalConflicts_empty {db : DB} {booking : Booking}
    (h : (approvalConflicts db booking).length = 0) :
    ∀ c ∈ db.bookings, c.vehicleId = booking.vehicleId → c.id ≠ booking.id →
      isActiveStatus c.status →
      ¬ conflictClauses c.startTime c.endTime booking.startTime booking.endTime := by
  intro c hc hv hne hact hcl
  have hnil : approvalConflicts db booking = [] := List.length_eq_zero.mp h
  unfold approvalConflicts at hnil
  have := List.filter_eq_nil.mp hnil c hc
  simp only [decide_eq_true_eq] at this
  exact this ⟨hv, hne, hact, hcl⟩

lemma approveBooking_ok {db : DB} {bookingId ownerId : Nat} {now : Int}
    {bk : Booking} {db' : DB}
    (h : approveBooking db bookingId ownerId now = .ok (bk, db')) :
    ∃ booking, db.findBooking bookingId = some booking ∧
      booking.ownerId = ownerId ∧ booking.status = .PENDING ∧
      (approvalConflicts db booking).length = 0 ∧
      bk = { booking with status := .CONFIRMED, confirmedAt := some now } ∧
      db' = db.updateBooking bookingId
        (fun b => { b with status := .CONFIRMED, confirmedAt := some now }) := by
  unfold approveBooking at h
  split at h
  · exact absurd h (by simp)
  rename_i booking hfind
  refine ⟨booking, hfind, ?_⟩
  split at h
  · exact absurd h (by simp)
  rename_i howner
  split at h
  · exact absurd h (by simp)
  rename_i hstat
  split at h
  · exact absurd h (by simp)
  rename_i hlen
  simp only [Except.ok.injEq, Prod.mk.injEq] at h
  obtain ⟨hbk, hdb⟩ := h
  exact ⟨not_not.mp howner, not_not.mp hstat, by omega, hbk.symm, hdb.symm⟩

lemma inv_approve {db : DB} {bookingId ownerId : Nat} {now : Int}
    {bk : Booking} {db' : DB}
    (h : approveBooking db bookingId ownerId now = .ok (bk, db'))
    (hwf : wfDB db) (hinv : noDoubleBooking db) :
    wfDB db' ∧ noDoubleBooking db' := by
  obtain ⟨booking, hfind, _, _, hconf, _, hdb⟩ := approveBooking_ok h
  obtain ⟨hbound, hnd⟩ := hwf
  subst hdb
  refine ⟨wfDB_updateBooking (by intro b; rfl) (by intro b; rfl) (by intro b; rfl)
    ⟨hbound, hnd⟩, ?_⟩
  refine noDoubleBooking_updateBooking (by intro b; rfl) (by intro b; rfl)
    (by intro b; rfl) (by intro b; rfl) hinv ?_
  intro t htMem htid _ c hcMem hcid hcveh hcact hov
  have hfb : db.bookings.find? (fun x => x.id == bookingId) = some booking := hfind
  have ht : t = booking := eq_of_mem_of_find? hnd hfb htMem htid
  subst ht
  have hbid : t.id = bookingId := (mem_of_find?_beq hfb).2
  have hclauses := approvalConflicts_empty hconf c hcMem hcveh (by omega) hcact
  have hc1 := (hbound c hcMem).1
  have hc2 := (hbound t htMem).1
  exact hclauses ((conflictClauses_iff hc1 hc2).mpr (intervalsOverlap_comm.mp hov))

lemma wfDB_of_eq {db db' : DB} (hb : db'.bookings = db.bookings)
    (hn : db.nextId ≤ db'.nextId) (h : wfDB db) : wfDB db' := by
  obtain ⟨h1, h2⟩ := h
  refine ⟨?_, by rw [hb]; exact h2⟩
  intro b hbMem
  rw [hb] at hbMem
  have := h1 b hbMem
  omega

lemma noDoubleBooking_of_eq {db db' : DB} (hb : db'.bookings = db.bookings)
    (h : noDoubleBooking db) : noDoubleBooking db' := by
  intro a ha b hbMem
  rw [hb] at ha hbMem
  exact h a ha b hbMem

lemma rejectBooking_ok {db : DB} {bookingId ownerId : Nat} {reason : String} {now : Int}
    {bk : Booking} {db' : DB}
    (h : rejectBooking db bookingId ownerId reason now = .ok (bk, db')) :
    db' = db.updateBooking bookingId (fun b =>
      { b with status := .REJECTED, cancellationReason := some reason,
               cancelledAt := some now }) := by
  unfold rejectBooking at h
  split at h
  · exact absurd h (by simp)
  split at h
  · exact absurd h (by simp)
  split at h
  · exact absurd h (by simp)
  simp only [Except.ok.injEq, Prod.mk.injEq] at h
  exact h.2.symm

lemma cancelBooking_ok {db : DB} {bookingId userId : Nat} {reason : String} {now : Int}
    {bk : Booking} {db' : DB}
    (h : cancelBooking db bookingId userId reason now = .ok (bk, db')) :
    db' = db.updateBooking bookingId (fun b =>
      { b with status := .CANCELLED, cancellationReason := some reason,
               cancelledAt := some now }) := by
  unfold cancelBooking at h
  split at h
  · exact absurd h (by simp)
  split at h
  · exact absurd h (by simp)
  split at h
  · exact absurd h (by simp)
  simp only [Except.ok.injEq, Prod.mk.injEq] at h
  exact h.2.symm

/-- Preservation for updates that leave the booking inactive (REJECTED,
CANCELLED, COMPLETED). -/
lemma inv_inactiveUpdate {db : DB} {targetId : Nat} {f : Booking → Booking}
    (hid : ∀ b, (f b).id = b.id)
    (hveh : ∀ b, (f b).vehicleId = b.vehicleId)
    (hst : ∀ b, (f b).startTime = b.startTime)
    (het : ∀ b, (f b).endTime = b.endTime)
    (hinact : ∀ b, ¬ isActiveStatus (f b).status)
    (hwf : wfDB db) (hinv : noDoubleBooking db) :
    wfDB (db.updateBooking targetId f) ∧ noDoubleBooking (db.updateBooking targetId f) := by
  refine ⟨wfDB_updateBooking hid hst het hwf, ?_⟩
  refine noDoubleBooking_updateBooking hid hveh hst het hinv ?_
  intro t _ _ hact
  exact absurd hact (hinact t)

lemma startTrip_ok {db : DB} {userId bookingId : Nat} {lat lon batt : ℚ}
    {addr : Option String} {now : Int} {t : Trip} {db' : DB}
    (h : startTrip db userId bookingId lat lon batt addr now = .ok (t, db')) :
    ∃ booking, db.findBooking bookingId = some booking ∧
      booking.status = .CONFIRMED ∧ booking.renterId = userId ∧
      db'.bookings = db.bookings.map (fun b =>
        if b.id = bookingId then { b with status := BookingStatus.ONGOING } else b) ∧
      db'.nextId = db.nextId + 1 := by
  unfold startTrip at h
  split at h
  · exact absurd h (by simp)
  rename_i booking hfind
  refine ⟨booking, hfind, ?_⟩
  split at h
  · exact absurd h (by simp)
  rename_i hren
  split at h
  · exact absurd h (by simp)
  rename_i hstat
  split at h
  · exact absurd h (by simp)
  split at h
  · exact absurd h (by simp)
  simp only [Except.ok.injEq, Prod.mk.injEq] at h
  obtain ⟨_, hdb⟩ := h
  refine ⟨not_not.mp hstat, not_not.mp hren, ?_, ?_⟩ <;>
    rw [← hdb] <;> rfl

lemma inv_start {db : DB} {userId bookingId : Nat} {lat lon batt : ℚ}
    {addr : Option String} {now : Int} {t : Trip} {db' : DB}
    (h : startTrip db userId bookingId lat lon batt addr now = .ok (t, db'))
    (hwf : wfDB db) (hinv : noDoubleBooking db) :
    wfDB db' ∧ noDoubleBooking db' := by
  obtain ⟨booking, hfind, hstat, _, hbks, hnext⟩ := startTrip_ok h
  obtain ⟨hbound, hnd⟩ := hwf
  have hbks' : db'.bookings =
      (db.updateBooking bookingId (fun b => { b with status := BookingStatus.ONGOING })).bookings :=
    hbks
  constructor
  · refine wfDB_of_eq hbks' (by simp only [DB.updateBooking]; omega)
      (wfDB_updateBooking (by intro b; rfl) (by intro b; rfl) (by intro b; rfl)
        ⟨hbound, hnd⟩)
  · refine noDoubleBooking_of_eq hbks'
      (noDoubleBooking_updateBooking (by intro b; rfl) (by intro b; rfl)
        (by intro b; rfl) (by intro b; rfl) hinv ?_)
    intro tb htMem htid _ c hcMem hcid hcveh hcact
    have ht : tb = booking := eq_of_mem_of_find? hnd hfind htMem htid
    have htact : isActiveStatus tb.status := by
      rw [ht, hstat]; exact Or.inl rfl
    exact hinv tb htMem c hcMem (by omega) hcveh.symm htact hcact

lemma find?_map_pres {α : Type} (l : List α) (p : α → Bool) (f : α → α)
    (hf : ∀ a, p (f a) = p a) : (l.map f).find? p = (l.find? p).map f := by
  induction l with
  | nil => rfl
  | cons a l ih =>
    by_cases h : p a = true
    · simp [List.find?_cons, hf, h]
    · simp only [List.map_cons, List.find?_cons, hf a, h]
      simp only [Bool.false_eq_true] at h
      simp [h, ih]

lemma endTrip_ok {db : DB} {tripId userId : Nat} {lat lon batt : ℚ}
    {addr : Option String} {hasIssues : Option Bool} {desc : Option String}
    {now : Int} {t : Trip} {db' : DB}
    (h : endTrip db tripId userId lat lon batt addr hasIssues desc now = .ok (t, db')) :
    ∃ trip, db.findTrip tripId = some trip ∧
      trip.renterId = userId ∧ trip.status = .ONGOING ∧
      db'.trips = db.trips.map (fun x =>
        if x.id = tripId then
          { x with
            status := TripStatus.COMPLETED,
            endLatitude := some lat,
            endLongitude := some lon,
            endAddress := addr,
            endBattery := some batt,
            duration := some (Int.fdiv (now - trip.startedAt.getD 0) (1000 * 60)),
            hasIssues := hasIssues.getD false,
            issueDescription := desc,
            completedAt := some now }
        else x) ∧
      db'.bookings = db.bookings.map (fun b =>
        if b.id = trip.bookingId then { b with status := BookingStatus.COMPLETED } else b) ∧
      db'.vehicles = db.vehicles.map (fun v =>
        if v.id = trip.vehicleId then { v with totalTrips := v.totalTrips + 1 } else v) ∧
      db'.payments = db.payments ∧ db'.nextId = db.nextId := by
  unfold endTrip at h
  split at h
  · exact absurd h (by simp)
  rename_i trip hfind
  refine ⟨trip, hfind, ?_⟩
  split at h
  · exact absurd h (by simp)
  rename_i hren
  split at h
  · exact absurd h (by simp)
  rename_i hstat
  split at h
  · exact absurd h (by simp)
  simp only [Except.ok.injEq, Prod.mk.injEq] at h
  obtain ⟨_, hdb⟩ := h
  refine ⟨not_not.mp hren, not_not.mp hstat, ?_, ?_, ?_, ?_, ?_⟩ <;>
    rw [← hdb] <;> rfl

lemma inv_stop {db : DB} {tripId userId : Nat} {lat lon batt : ℚ}
    {addr : Option String} {hasIssues : Option Bool} {desc : Option String}
    {now : Int} {t : Trip} {db' : DB}
    (h : endTrip db tripId userId lat lon batt addr hasIssues desc now = .ok (t, db'))
    (hwf : wfDB db) (hinv : noDoubleBooking db) :
    wfDB db' ∧ noDoubleBooking db' := by
  obtain ⟨trip, _, _, _, _, hbks, _, _, hnext⟩ := endTrip_ok h
  have hbks' : db'.bookings =
      (db.updateBooking trip.bookingId
        (fun b => { b with status := BookingStatus.COMPLETED })).bookings := hbks
  have hupd := @inv_inactiveUpdate db trip.bookingId
    (fun b => { b with status := BookingStatus.COMPLETED })
    (by intro b; rfl) (by intro b; rfl) (by intro b; rfl) (by intro b; rfl)
    (by intro b; simp [isActiveStatus]) hwf hinv
  exact ⟨wfDB_of_eq hbks' (by simp only [DB.updateBooking]; omega) hupd.1,
    noDoubleBooking_of_eq hbks' hupd.2⟩

lemma inv_reject {db : DB} {bookingId ownerId : Nat} {reason : String} {now : Int}
    {bk : Booking} {db' : DB}
    (h : rejectBooking db bookingId ownerId reason now = .ok (bk, db'))
    (hwf : wfDB db) (hinv : noDoubleBooking db) :
    wfDB db' ∧ noDoubleBooking db' := by
  rw [rejectBooking_ok h]
  exact inv_inactiveUpdate (by intro b; rfl) (by intro b; rfl) (by intro b; rfl)
    (by intro b; rfl) (by intro b; simp [isActiveStatus]) hwf hinv

lemma inv_cancel {db : DB} {bookingId userId : Nat} {reason : String} {now : Int}
    {bk : Booking} {db' : DB}
    (h : cancelBooking db bookingId userId reason now = .ok (bk, db'))
    (hwf : wfDB db) (hinv : noDoubleBooking db) :
    wfDB db' ∧ noDoubleBooking db' := by
  rw [cancelBooking_ok h]
  exact inv_inactiveUpdate (by intro b; rfl) (by intro b; rfl) (by intro b; rfl)
    (by intro b; rfl) (by intro b; simp [isActiveStatus]) hwf hinv

/-- Every reachable store is well-formed and free of overlapping active
bookings. -/
lemma reachable_inv {db : DB} (h : Reachable db) : wfDB db ∧ noDoubleBooking db := by
  induction h with
  | init vehicles nextId =>
    exact ⟨⟨(by intro b hb; cases hb), (by simp)⟩, (by intro a ha; cases ha)⟩
  | step _ hstep ih =>
    obtain ⟨hwf, hinv⟩ := ih
    cases hstep with
    | create h => exact inv_create h hwf hinv
    | approve h => exact inv_approve h hwf hinv
    | reject h => exact inv_reject h hwf hinv
    | cancel h => exact inv_cancel h hwf hinv
    | start h => exact inv_start h hwf hinv
    | stop h => exact inv_stop h hwf hinv

/-- The store after a service call: the updated store on success, the
untouched store on a thrown exception (every service method performs all of
its reads and checks before its first write, so an error leaves the store as
it was). -/
def dbAfter {α : Type} (db : DB) (r : Except ApiError (α × DB)) : DB :=
  match r with
  | .ok (_, d) => d
  | .error _ => db

lemma jsCeil_eq (q : ℚ) : jsCeil q = ⌈q⌉ := by
  have h : ((-q).floor) = ⌊-q⌋ := rfl
  rw [jsCeil, h, Int.floor_neg, neg_neg]

lemma createBooking_totalPrice {db : DB} {userId vehicleId : Nat}
    {startTime endTime : Int} {notes : Option String} {now : Int}
    {bk : Booking} {db' : DB} {vehicle : Vehicle}
    (hveh : db.findVehicle vehicleId = some vehicle)
    (h : createBooking db userId vehicleId startTime endTime notes now = .ok (bk, db')) :
    bk.totalPrice =
      calculateTotalPrice startTime endTime vehicle.pricePerHour vehicle.pricePerDay := by
  unfold createBooking at h
  split at h
  · exact absurd h (by simp)
  split at h
  · exact absurd h (by simp)
  split at h
  · exact absurd h (by simp)
  rename_i veh2 hfind2
  have hv2 : vehicle = veh2 := Option.some_inj.mp (hveh.symm.trans hfind2)
  subst hv2
  split at h
  · exact absurd h (by simp)
  split at h
  · exact absurd h (by simp)
  split at h
  · exact absurd h (by simp)
  simp only [Except.ok.injEq, Prod.mk.injEq] at h
  rw [← h.1]

/-- C4: for nonempty half-open intervals, the three-clause Prisma `OR`
filter used by `isVehicleAvailable` (and by the approval re-check) flags an
existing booking `[bs, be)` against a requested window `[s, e)` exactly when
the two intervals intersect, i.e. `s < be ∧ bs < e`. -/
theorem C4_three_clause_equiv (bs be s e : Int) (hb : bs < be) (hn : s < e) :
    conflictClauses bs be s e ↔ intervalsOverlap bs be s e :=
  conflictClauses_iff hb hn

/-- Witness for C4 at a concrete input. -/
theorem C4_three_clause_equiv_witness :
    ((0 : Int) < 10 ∧ (5 : Int) < 15) ∧
      (conflictClauses 0 10 5 15 ↔ intervalsOverlap 0 10 5 15) :=
  ⟨⟨by decide, by decide⟩, C4_three_clause_equiv 0 10 5 15 (by decide) (by decide)⟩

/-- C5: `calculateTotalPrice` charges `ceil` of the exact day count times
`pricePerDay` when the millisecond duration is at least 24 hours
(86400000 ms), else `ceil` of the exact hour count times `pricePerHour`;
every booking returned by `createBooking` carries that price computed from
the vehicle's rates; a 4-hour booking at 20000/h and 300000/day costs 80000
and an exactly-24-hour booking costs 300000. -/
theorem C5_pricing (s e : Int) (ph pd : ℚ) (h : s < e) :
    (calculateTotalPrice s e ph pd =
      if (86400000 : ℚ) ≤ ((e - s : Int) : ℚ) then
        (jsCeil (((e - s : Int) : ℚ) / 86400000) : ℚ) * pd
      else
        (jsCeil (((e - s : Int) : ℚ) / 3600000) : ℚ) * ph) ∧
    (∀ (db : DB) (u v : Nat) (notes : Option String) (now : Int)
        (bk : Booking) (db' : DB) (veh : Vehicle),
      db.findVehicle v = some veh →
      createBooking db u v s e notes now = .ok (bk, db') →
      bk.totalPrice = calculateTotalPrice s e veh.pricePerHour veh.pricePerDay) ∧
    calculateTotalPrice 0 14400000 20000 300000 = 80000 ∧
    calculateTotalPrice 0 86400000 20000 300000 = 300000 := by
  refine ⟨?_, ?_, ?_, ?_⟩
  · simp only [calculateTotalPrice]
    rw [div_div]
    norm_num
    have key : ((1 : ℚ) ≤ ((e : ℚ) - (s : ℚ)) / 86400000) ↔
        ((86400000 : ℚ) ≤ (e : ℚ) - (s : ℚ)) := by
      rw [le_div_iff (by norm_num)]
      norm_num
    split_ifs with h1 h2 h3
    · rfl
    · exact absurd (key.mp h1) h2
    · exact absurd (key.mpr h3) h1
    · rfl
  · intro db u v notes now bk db' veh hveh hok
    exact createBooking_totalPrice hveh hok
  · unfold calculateTotalPrice
    norm_num [jsCeil_eq, Int.ceil_eq_iff]
  · unfold calculateTotalPrice
    norm_num [jsCeil_eq, Int.ceil_eq_iff]

/-- Witness for C5: the 4-hour scenario, with the hypothesis discharged at
`s = 0`, `e = 14400000`. -/
theorem C5_pricing_witness :
    (0 : Int) < 14400000 ∧ calculateTotalPrice 0 14400000 20000 300000 = 80000 :=
  ⟨by decide, (C5_pricing 0 14400000 20000 300000 (by decide)).2.2.1⟩

/-- Demo data for the startTrip claim: a CONFIRMED booking for the window
`[0, 7200000)`. -/
def bookingC10 : Booking :=
  { id := 100, renterId := 2, ownerId := 10, vehicleId := 1,
    status := .CONFIRMED, startTime := 0, endTime := 7200000,
    totalPrice := 40000, deposit := 500, notes := none,
    cancellationReason := none, confirmedAt := some 1, cancelledAt := none }

def dbC10 : DB :=
  { vehicles := [], bookings := [bookingC10], trips := [], payments := [],
    nextId := 300 }

/-- C10: `startTrip` checks only the lower bound of the booking window: a
CONFIRMED booking of the caller with no existing trip can be started at any
`now ≥ startTime`; no check compares `now` with `endTime`. -/
theorem C10_startTrip_no_upper_bound (db : DB) (booking : Booking)
    (userId bookingId : Nat) (lat lon batt : ℚ) (addr : Option String) (now : Int)
    (hfind : db.findBooking bookingId = some booking)
    (hren : booking.renterId = userId)
    (hstat : booking.status = .CONFIRMED)
    (hnotrip : db.findTripByBooking bookingId = none)
    (hlow : booking.startTime ≤ now) :
    ∃ t db', startTrip db userId bookingId lat lon batt addr now = .ok (t, db') := by
  unfold startTrip
  rw [hfind, hnotrip]
  simp [hren, hstat, not_lt.mpr hlow]

/-- Witness for C10: the trip starts even though `now = 9000000` is already
past the booked `endTime = 7200000`. -/
theorem C10_startTrip_no_upper_bound_witness :
    (bookingC10.endTime < 9000000 ∧ bookingC10.startTime ≤ 9000000) ∧
      ∃ t db', startTrip dbC10 2 100 10 106 90 none 9000000 = .ok (t, db') :=
  ⟨⟨by decide, by decide⟩,
    C10_startTrip_no_upper_bound dbC10 bookingC10 2 100 10 106 90 none 9000000
      (by decide) rfl rfl (by decide) (by decide)⟩

/-- C9: the haversine distance of `TripsService.calculateDistance` vanishes
on identical points and is symmetric in its two points. -/
theorem C9_haversine_zero_and_symm :
    (∀ lat lon : ℝ, calculateDistance lat lon lat lon = 0) ∧
    (∀ lat1 lon1 lat2 lon2 : ℝ,
      calculateDistance lat1 lon1 lat2 lon2 = calculateDistance lat2 lon2 lat1 lon1) := by
  constructor
  · intro lat lon
    simp [calculateDistance, toRadians, atan2]
  · intro lat1 lon1 lat2 lon2
    have hsin : ∀ x y : ℝ,
        Real.sin ((x - y) * (Real.pi / 180) / 2) * Real.sin ((x - y) * (Real.pi / 180) / 2) =
        Real.sin ((y - x) * (Real.pi / 180) / 2) * Real.sin ((y - x) * (Real.pi / 180) / 2) := by
      intro x y
      rw [show (x - y) * (Real.pi / 180) / 2 = -((y - x) * (Real.pi / 180) / 2) by ring,
        Real.sin_neg]
      ring
    simp only [calculateDistance, toRadians]
    rw [hsin lat2 lat1, hsin lon2 lon1, mul_comm (Real.cos (lat1 * (Real.pi / 180)))
      (Real.cos (lat2 * (Real.pi / 180)))]

/-- C3: approving a PENDING booking while another CONFIRMED/ONGOING booking
of the same vehicle overlaps its window fails with the BadRequest
"no longer available" error, and the store — in particular the PENDING
booking — is untouched: the source throws before performing any write, so
the failed call mutates nothing and does not auto-reject. -/
theorem C3_approve_conflict_fails (db : DB) (A B : Booking) (ownerId : Nat) (now : Int)
    (hfind : db.findBooking A.id = some A)
    (hAp : A.status = .PENDING)
    (hAo : A.ownerId = ownerId)
    (hBmem : B ∈ db.bookings)
    (hne : B.id ≠ A.id)
    (hveh : B.vehicleId = A.vehicleId)
    (hBact : isActiveStatus B.status)
    (hAw : A.startTime < A.endTime)
    (hBw : B.startTime < B.endTime)
    (hov : intervalsOverlap B.startTime B.endTime A.startTime A.endTime) :
    approveBooking db A.id ownerId now =
      .error (.BadRequest "Vehicle is no longer available for this time slot") ∧
    dbAfter db (approveBooking db A.id ownerId now) = db ∧
    A.status = .PENDING := by
  have hconf : 0 < (approvalConflicts db A).length := by
    have hmem : B ∈ approvalConflicts db A := by
      unfold approvalConflicts
      rw [List.mem_filter]
      refine ⟨hBmem, ?_⟩
      simp only [decide_eq_true_eq]
      exact ⟨hveh, hne, hBact, (conflictClauses_iff hBw hAw).mpr hov⟩
    exact List.length_pos.mpr (List.ne_nil_of_mem hmem)
  have herr : approveBooking db A.id ownerId now =
      .error (.BadRequest "Vehicle is no longer available for this time slot") := by
    unfold approveBooking
    rw [hfind]
    simp [hAo, hAp, hconf]
  exact ⟨herr, by rw [herr]; rfl, hAp⟩

def bookingC3A : Booking :=
  { id := 100, renterId := 2, ownerId := 10, vehicleId := 1,
    status := .PENDING, startTime := 0, endTime := 36000000,
    totalPrice := 200000, deposit := 500, notes := none,
    cancellationReason := none, confirmedAt := none, cancelledAt := none }

def bookingC3B : Booking :=
  { id := 101, renterId := 3, ownerId := 10, vehicleId := 1,
    status := .CONFIRMED, startTime := 18000000, endTime := 72000000,
    totalPrice := 300000, deposit := 500, notes := none,
    cancellationReason := none, confirmedAt := some 5, cancelledAt := none }

def dbC3 : DB :=
  { vehicles := [], bookings := [bookingC3A, bookingC3B], trips := [],
    payments := [], nextId := 300 }

/-- Witness for C3: booking 100 (PENDING, `[0, 36000000)`) cannot be
approved while booking 101 (CONFIRMED, `[18000000, 72000000)`) overlaps. -/
theorem C3_approve_conflict_fails_witness :
    (bookingC3B.status = .CONFIRMED ∧
      intervalsOverlap bookingC3B.startTime bookingC3B.endTime
        bookingC3A.startTime bookingC3A.endTime) ∧
    approveBooking dbC3 100 10 77 =
      .error (.BadRequest "Vehicle is no longer available for this time slot") :=
  ⟨⟨rfl, by decide⟩,
    (C3_approve_conflict_fails dbC3 bookingC3A bookingC3B 10 77 (by decide) rfl rfl
      (by decide) (by decide) rfl (by decide) (by decide) (by decide) (by decide)).1⟩

/-- C8: `createPayment` rejects a payer other than the booking's renter, a
booking that already has a payment, and a booking that is not CONFIRMED —
each with a BadRequest error and no store change — and on success creates
exactly one PENDING payment with `amount = totalPrice + deposit`,
`platformFee = amount × 0.15` and `ownerAmount = amount − platformFee`. -/
theorem C8_createPayment (db : DB) (u bid : Nat) (method : String) (booking : Booking)
    (hfind : db.findBooking bid = some booking) :
    (booking.renterId ≠ u →
      createPayment db u bid method =
        .error (.BadRequest "You can only pay for your own bookings")) ∧
    (booking.renterId = u → (db.findPaymentByBooking bid).isSome = true →
      createPayment db u bid method =
        .error (.BadRequest "Payment already exists for this booking")) ∧
    (booking.renterId = u → db.findPaymentByBooking bid = none →
      booking.status ≠ .CONFIRMED →
      createPayment db u bid method =
        .error (.BadRequest "Can only pay for confirmed bookings")) ∧
    (∀ err, createPayment db u bid method = .error err →
      dbAfter db (createPayment db u bid method) = db) ∧
    (booking.renterId = u → db.findPaymentByBooking bid = none →
      booking.status = .CONFIRMED →
      ∃ pay db', createPayment db u bid method = .ok (pay, db') ∧
        pay.amount = booking.totalPrice + booking.deposit ∧
        pay.platformFee = pay.amount * (15 / 100) ∧
        pay.ownerAmount = pay.amount - pay.platformFee ∧
        pay.status = .PENDING ∧
        db'.payments = db.payments ++ [pay] ∧
        db'.bookings = db.bookings) := by
  refine ⟨?_, ?_, ?_, ?_, ?_⟩
  · intro hren
    unfold createPayment
    rw [hfind]
    simp [hren]
  · intro hren hpay
    unfold createPayment
    rw [hfind]
    simp [hren, hpay]
  · intro hren hpay hstat
    unfold createPayment
    rw [hfind, hpay]
    simp [hren, hstat]
  · intro err herr
    rw [herr]
    rfl
  · intro hren hpay hstat
    unfold createPayment
    rw [hfind, hpay]
    simp only [hren, hstat, ne_eq, not_true_eq_false, if_false, Option.isSome_none,
      Bool.false_eq_true, if_true, ite_false, ite_true]
    exact ⟨_, _, rfl, rfl, rfl, rfl, rfl, rfl, rfl⟩

def bookingC8 : Booking :=
  { id := 100, renterId := 2, ownerId := 10, vehicleId := 1,
    status := .CONFIRMED, startTime := 0, endTime := 36000000,
    totalPrice := 200000, deposit := 500, notes := none,
    cancellationReason := none, confirmedAt := some 5, cancelledAt := none }

def dbC8 : DB :=
  { vehicles := [], bookings := [bookingC8], trips := [], payments := [],
    nextId := 300 }

/-- Witness for C8: the success case on a CONFIRMED booking with no prior
payment. -/
theorem C8_createPayment_witness :
    (bookingC8.status = .CONFIRMED ∧ dbC8.findPaymentByBooking 100 = none) ∧
    (∃ pay db', createPayment dbC8 2 100 "QR" = .ok (pay, db') ∧
      pay.amount = bookingC8.totalPrice + bookingC8.deposit ∧
      pay.platformFee = pay.amount * (15 / 100) ∧
      pay.ownerAmount = pay.amount - pay.platformFee ∧
      pay.status = .PENDING ∧
      db'.payments = dbC8.payments ++ [pay] ∧
      db'.bookings = dbC8.bookings) :=
  ⟨⟨rfl, by decide⟩,
    (C8_createPayment dbC8 2 100 "QR" bookingC8 (by decide)).2.2.2.2 rfl (by decide) rfl⟩

instance (db : DB) : Decidable (noDoubleBooking db) := by
  unfold noDoubleBooking; infer_instance

instance {ε α : Type} [DecidableEq ε] [DecidableEq α] : DecidableEq (Except ε α) :=
  fun a b =>
  match a, b with
  | .error e, .error f => decidable_of_iff (e = f) (by simp)
  | .error _, .ok _ => isFalse (by simp)
  | .ok _, .error _ => isFalse (by simp)
  | .ok x, .ok y => decidable_of_iff (x = y) (by simp)

/-- Two PENDING requests for overlapping windows of vehicle 1. -/
def bookingC2A : Booking :=
  { id := 101, renterId := 2, ownerId := 10, vehicleId := 1,
    status := .PENDING, startTime := 0, endTime := 36000000,
    totalPrice := 200000, deposit := 500, notes := none,
    cancellationReason := none, confirmedAt := none, cancelledAt := none }

def bookingC2B : Booking :=
  { id := 102, renterId := 3, ownerId := 10, vehicleId := 1,
    status := .PENDING, startTime := 18000000, endTime := 54000000,
    totalPrice := 200000, deposit := 500, notes := none,
    cancellationReason := none, confirmedAt := none, cancelledAt := none }

def dbC2 : DB :=
  { vehicles := [], bookings := [bookingC2A, bookingC2B], trips := [],
    payments := [], nextId := 300 }

/-- The interleaving check(A); check(B); commit(A); commit(B) of two
concurrent `approveBooking` calls. -/
def dbC2race : DB := approveCommit (approveCommit dbC2 101 50) 102 60

/-- C2: the conflict re-check and the CONFIRMED write of `approveBooking`
are separate store calls with no transaction or lock, so under the
interleaving check(A); check(B); commit(A); commit(B) of two concurrent
approvals of PENDING bookings 101 and 102 — overlapping windows on the same
vehicle — both checks observe no conflict, both writes land, and the
resulting store holds two overlapping CONFIRMED bookings, violating the
at-most-one-succeeds guarantee the spec claims. -/
theorem C2_approval_race_both_succeed :
    approveCheck dbC2 101 10 = .ok bookingC2A ∧
    approveCheck dbC2 102 10 = .ok bookingC2B ∧
    (∃ a ∈ dbC2race.bookings, a.id = 101 ∧ a.status = .CONFIRMED) ∧
    (∃ b ∈ dbC2race.bookings, b.id = 102 ∧ b.status = .CONFIRMED) ∧
    ¬ noDoubleBooking dbC2race := by
  refine ⟨by decide, by decide, by decide, by decide, by decide⟩

/-- C6: a successful `endTrip` presupposes the trip was ONGOING (trips are
only created by `startTrip`, and created ONGOING); after it completes the
trip, any second `endTrip` on the same trip fails with the BadRequest
"Can only end ongoing trips" error — the first call set the status to
COMPLETED — and the failing call leaves the trip, its booking and the
vehicle's trip counter untouched (the source throws before any write). -/
theorem C6_endTrip_second_call_fails {db : DB} {tripId userId : Nat}
    {lat lon batt : ℚ} {addr : Option String} {hasIssues : Option Bool}
    {desc : Option String} {now : Int} {t : Trip} {db' : DB}
    (hok : endTrip db tripId userId lat lon batt addr hasIssues desc now = .ok (t, db')) :
    (∃ trip, db.findTrip tripId = some trip ∧ trip.status = .ONGOING) ∧
    (∀ (lat2 lon2 batt2 : ℚ) (addr2 : Option String) (hi2 : Option Bool)
        (desc2 : Option String) (now2 : Int),
      endTrip db' tripId userId lat2 lon2 batt2 addr2 hi2 desc2 now2 =
        .error (.BadRequest "Can only end ongoing trips") ∧
      dbAfter db' (endTrip db' tripId userId lat2 lon2 batt2 addr2 hi2 desc2 now2) = db') := by
  obtain ⟨trip, hfind, hren, hstat, htrips, _, _, _, _⟩ := endTrip_ok hok
  refine ⟨⟨trip, hfind, hstat⟩, ?_⟩
  intro lat2 lon2 batt2 addr2 hi2 desc2 now2
  have htid : trip.id = tripId := by
    have := List.find?_some hfind
    simpa using this
  have hfind' : db'.findTrip tripId = some
      { trip with
        status := TripStatus.COMPLETED,
        endLatitude := some lat,
        endLongitude := some lon,
        endAddress := addr,
        endBattery := some batt,
        duration := some (Int.fdiv (now - trip.startedAt.getD 0) (1000 * 60)),
        hasIssues := hasIssues.getD false,
        issueDescription := desc,
        completedAt := some now } := by
    show db'.trips.find? (fun x => x.id == tripId) = _
    rw [htrips]
    rw [find?_map_pres _ _ _ (fun x => by by_cases hx : x.id = tripId <;> simp [hx])]
    have hfindt : db.trips.find? (fun x => x.id == tripId) = some trip := hfind
    rw [hfindt]
    simp [htid]
  have herr : endTrip db' tripId userId lat2 lon2 batt2 addr2 hi2 desc2 now2 =
      .error (.BadRequest "Can only end ongoing trips") := by
    unfold endTrip
    rw [hfind']
    simp [hren]
  exact ⟨herr, by rw [herr]; rfl⟩

def tripC6 : Trip :=
  { id := 200, bookingId := 100, renterId := 2, vehicleId := 1,
    status := .ONGOING, startLatitude := some 10, startLongitude := some 106,
    startAddress := none, endLatitude := none, endLongitude := none,
    endAddress := none, duration := none, startBattery := some 95,
    endBattery := none, hasIssues := false, issueDescription := none,
    startedAt := some 1000, completedAt := none }

def bookingC6 : Booking :=
  { id := 100, renterId := 2, ownerId := 10, vehicleId := 1,
    status := .ONGOING, startTime := 0, endTime := 7200000,
    totalPrice := 40000, deposit := 500, notes := none,
    cancellationReason := none, confirmedAt := some 1, cancelledAt := none }

def vehicleC6 : Vehicle :=
  { id := 1, ownerId := 10, pricePerHour := 20000, pricePerDay := 300000,
    deposit := 500, status := .AVAILABLE, isAvailable := true, totalTrips := 0 }

def dbC6 : DB :=
  { vehicles := [vehicleC6], bookings := [bookingC6], trips := [tripC6],
    payments := [], nextId := 300 }

/-- The trip row as completed by the first `endTrip` call of the witness. -/
def tripC6done : Trip :=
  { tripC6 with
    status := .COMPLETED,
    endLatitude := some 11,
    endLongitude := some 107,
    endBattery := some 60,
    duration := some 1,
    completedAt := some 61000 }

/-- The store after the first `endTrip` call of the witness. -/
def dbC6done : DB :=
  { vehicles := [{ vehicleC6 with totalTrips := 1 }],
    bookings := [{ bookingC6 with status := .COMPLETED }],
    trips := [tripC6done], payments := [], nextId := 300 }

/-- Witness for C6: ending trip 200 once succeeds; ending it again fails. -/
theorem C6_endTrip_second_call_fails_witness :
    (∃ trip, dbC6.findTrip 200 = some trip ∧ trip.status = .ONGOING) ∧
    endTrip dbC6done 200 2 12 108 50 none none none 99000 =
      .error (.BadRequest "Can only end ongoing trips") := by
  have h := C6_endTrip_second_call_fails
    (by decide :
      endTrip dbC6 200 2 11 107 60 none none none 61000 = .ok (tripC6done, dbC6done))
  exact ⟨h.1, (h.2 12 108 50 none none none 99000).1⟩

/-- C1: in every store reachable through the six booking operations, any
two distinct CONFIRMED/ONGOING bookings of the same vehicle occupy disjoint
half-open `[startTime, endTime)` windows. -/
theorem C1_no_double_booking (db : DB) (h : Reachable db) : noDoubleBooking db :=
  (reachable_inv h).2

/-- The PENDING booking created in the C1 witness run. -/
def bookingC1 : Booking :=
  { id := 100, renterId := 2, ownerId := 10, vehicleId := 1,
    status := .PENDING, startTime := 0, endTime := 14400000,
    totalPrice := 80000, deposit := 500, notes := none,
    cancellationReason := none, confirmedAt := none, cancelledAt := none }

/-- The store of the C1 witness run after `createBooking`. -/
def dbC1a : DB :=
  { vehicles := [vehicleC6], bookings := [bookingC1], trips := [],
    payments := [], nextId := 101 }

/-- The store of the C1 witness run after `approveBooking`. -/
def dbC1b : DB :=
  { vehicles := [vehicleC6],
    bookings := [{ bookingC1 with status := .CONFIRMED, confirmedAt := some 7 }],
    trips := [], payments := [], nextId := 101 }

/-- The initial store of the C1 witness run. -/
def dbC1init : DB :=
  { vehicles := [vehicleC6], bookings := [], trips := [], payments := [],
    nextId := 100 }

-- Witness for C1: the store reached by create-then-approve satisfies the
-- invariant.
unseal Rat.mul Rat.inv in
theorem C1_no_double_booking_witness : noDoubleBooking dbC1b :=
  C1_no_double_booking dbC1b
    (Reachable.step
      (Reachable.step (Reachable.init [vehicleC6] 100)
        (Step.create (by decide :
          createBooking dbC1init 2 1 0 14400000 none 0 = .ok (bookingC1, dbC1a))))
      (Step.approve (by decide :
        approveBooking dbC1a 100 10 7 =
          .ok ({ bookingC1 with status := .CONFIRMED, confirmedAt := some 7 }, dbC1b))))

/-- C7 (amended): `getVehicleSchedule` returns exactly the vehicle's
bookings with status in {PENDING, CONFIRMED, ONGOING} and `endTime ≥ now`
(all of them whenever at most 30 match), ordered by `startTime` ascending
and capped at 30 rows.  The rows are returned without the renter relation
(no profile data), but they are raw booking rows and still carry the
`renterId` column — see the counterexample for the original claim's
"does not expose the renter's identity" part. -/
theorem C7_schedule_filter_sort_cap (db : DB) (vehicleId : Nat) (now : Int) :
    (getVehicleSchedule db vehicleId now).length ≤ 30 ∧
    (∀ b ∈ getVehicleSchedule db vehicleId now,
      b ∈ db.bookings ∧ b.vehicleId = vehicleId ∧ isBlockingStatus b.status ∧
        now ≤ b.endTime) ∧
    (getVehicleSchedule db vehicleId now).Pairwise
      (fun a b => a.startTime ≤ b.startTime) ∧
    ((db.bookings.filter (fun b => decide (schedulePred vehicleId now b))).length ≤ 30 →
      ∀ b ∈ db.bookings, schedulePred vehicleId now b →
        b ∈ getVehicleSchedule db vehicleId now) := by
  have hsched : getVehicleSchedule db vehicleId now =
      ((db.bookings.filter (fun b => decide (schedulePred vehicleId now b))).mergeSort
        (fun a b => decide (a.startTime ≤ b.startTime))).take 30 := rfl
  have hperm := List.mergeSort_perm
    (db.bookings.filter (fun b => decide (schedulePred vehicleId now b)))
    (fun a b => decide (a.startTime ≤ b.startTime))
  refine ⟨?_, ?_, ?_, ?_⟩
  · rw [hsched, List.length_take]
    exact min_le_left _ _
  · intro b hb
    rw [hsched] at hb
    have hb2 := List.take_subset _ _ hb
    have hb3 := hperm.mem_iff.mp hb2
    rw [List.mem_filter] at hb3
    have hp := of_decide_eq_true hb3.2
    exact ⟨hb3.1, hp.1, hp.2.1, hp.2.2⟩
  · have hs := @List.sorted_mergeSort Booking
      (fun a b : Booking => decide (a.startTime ≤ b.startTime))
      (fun a b c hab hbc => by
        simp only [decide_eq_true_eq] at *
        omega)
      (fun a b => by
        simp only [Bool.or_eq_true, decide_eq_true_eq]
        omega)
      (db.bookings.filter (fun b => decide (schedulePred vehicleId now b)))
    rw [hsched]
    exact List.Pairwise.sublist (List.take_sublist _ _)
      (hs.imp (fun h => of_decide_eq_true h))
  · intro hlen b hbMem hpred
    have hbf : b ∈ db.bookings.filter (fun b => decide (schedulePred vehicleId now b)) := by
      rw [List.mem_filter]
      exact ⟨hbMem, decide_eq_true hpred⟩
    rw [hsched, List.take_of_length_le (by rw [hperm.length_eq]; exact hlen)]
    exact hperm.mem_iff.mpr hbf

def bookingC7 : Booking :=
  { id := 100, renterId := 7, ownerId := 10, vehicleId := 1,
    status := .CONFIRMED, startTime := 1000, endTime := 36000000,
    totalPrice := 200000, deposit := 500, notes := none,
    cancellationReason := none, confirmedAt := some 5, cancelledAt := none }

def dbC7 : DB :=
  { vehicles := [], bookings := [bookingC7], trips := [], payments := [],
    nextId := 300 }

/-- Counterexample to C7 as stated: the schedule rows are raw booking rows,
so the renter's identity (`renterId = 7` here) is present in the response —
only the renter's profile relation is omitted. -/
theorem C7_schedule_exposes_renterId :
    (getVehicleSchedule dbC7 1 0).map Booking.renterId = [7] := by
  unfold getVehicleSchedule
  rw [show dbC7.bookings.filter (fun b => decide (schedulePred 1 0 b)) = [bookingC7]
    from by decide]
  rw [List.mergeSort_singleton]
  decide

end EMRS
